import Mathlib

/-!
Verification of the tuidal terminal music player (`src/tuidal/tuidal.py`,
`src/tuidal/session.py`) against its natural-language specification.

The Python code is shallowly embedded: each method of `PlayerWidget`,
`TrackSelection`, `AlbumSelection`, `ArtistSearch` and `Session` that the
specification talks about becomes a Lean function over an explicit state
record.  Calls into external libraries (the mpv playback device, the
tidalapi provider, the textual UI toolkit, the file system) are modelled
as explicit inputs: the state record carries the observables the code
reads from them, and environment records carry the outcomes of the calls
the code makes.  A Python exception escaping a method is modelled as a
`some e : Option PyExc` component of the result, paired with the object
state at the moment the exception propagates (mutations already made
stick, as they do in Python).
-/

/-- Python exception classes that appear in the embedded code paths.
`jsonDecodeError` stands for `json.JSONDecodeError`; in Python it is a
subclass of `ValueError`, which matters for `except ValueError` clauses. -/
inductive PyExc where
  | timeoutError
  | valueError
  | jsonDecodeError
  | objectNotFound
  | osError
  | zeroDivisionError
  | attributeError
  | indexError
  | otherError
deriving DecidableEq, Repr

/-- An `except ValueError` clause also catches `json.JSONDecodeError`. -/
def PyExc.isValueError : PyExc → Bool
  | .valueError => true
  | .jsonDecodeError => true
  | _ => false

/-- Opaque catalog track record (`tidalapi.media.Track`); only identity
matters to the control logic. -/
structure Track where
  id : Nat
deriving DecidableEq, Repr

/-- Opaque catalog album record (`tidalapi.album.Album`). -/
structure Album where
  id : Nat
deriving DecidableEq, Repr

/-- Opaque catalog artist record (`tidalapi.artist.Artist`). -/
structure Artist where
  id : Nat
deriving DecidableEq, Repr

/-- Python list subscription `l[i]`: a nonnegative index counts from the
front, a negative index `i` means `l[len l + i]`, and an index out of
range raises `IndexError`, modelled as `none`. -/
def pyGet {α : Type} (l : List α) (i : Int) : Option α :=
  if 0 ≤ i then l[i.toNat]?
  else if 0 ≤ (l.length : Int) + i then l[((l.length : Int) + i).toNat]?
  else none

/-- `PlayerWidget.State` from `tuidal.py` (lines 111-122). -/
inductive PlayerWidget.State where
  | PLAYING
  | PAUSED
  | STOPPED
deriving DecidableEq, Repr

/-- `PlayerWidget.Repeat` from `tuidal.py` (lines 124-135). -/
inductive PlayerWidget.Repeat where
  | NO
  | TRACK
  | TRACK_LIST
deriving DecidableEq, Repr

/-- The state of a `PlayerWidget` object (`tuidal.py` lines 81-155)
together with the observables it reads from the external mpv device.

* `tracks`, `current_track_index`, `player_state` are the attributes of
  the same names (`current_track_index` is a Python `int`, so it is
  embedded as `Int`: it can go negative).
* `repeat_` is the attribute `repeat` (a Lean keyword).
* `timer_running` models `playback_timer`: `true` iff the textual
  interval timer is currently running (not paused).
* `player_paused` models the mpv property `self.player.pause`.
* `idle_active` and `percent_pos` model the device observables
  `self.player.idle_active` and `int(self.player.percent_pos)` as read
  on the next poll; the widget code never writes them. -/
structure PlayerWidget where
  tracks : List Track
  current_track_index : Int
  repeat_ : PlayerWidget.Repeat
  player_state : PlayerWidget.State
  timer_running : Bool
  player_paused : Bool
  idle_active : Bool
  percent_pos : Int
deriving DecidableEq, Repr

namespace PlayerWidget

/-- `PlayerWidget.current_track` (lines 186-196): `self.tracks[self.current_track_index]`
with `IndexError` caught and turned into `None`. -/
def current_track (s : PlayerWidget) : Option Track :=
  pyGet s.tracks s.current_track_index

/-- `PlayerWidget.set_tracks` (lines 198-205). -/
def set_tracks (s : PlayerWidget) (tracks : List Track) : PlayerWidget :=
  { s with tracks := tracks, current_track_index := 0 }

/-- `PlayerWidget.play` (lines 173-184).  The method first pauses the
playback timer, then calls `self.current_track.get_url()`: when
`current_track` is `None` this raises `AttributeError`.  Otherwise the
mpv device is started on the track's URL, `player_state` is set to
`PLAYING` and `start_timer` (lines 276-282) restarts and resumes the
timer.  The UI updates (`currently_playing`, `progress_bar`,
`playback_time`, `track_duration`) carry no control state and are not
modelled.  Note that `play` never writes the mpv `pause` property. -/
def play (s : PlayerWidget) : PlayerWidget × Option PyExc :=
  match current_track { s with timer_running := false } with
  | none => ({ s with timer_running := false }, some .attributeError)
  | some _ => ({ s with player_state := State.PLAYING, timer_running := true }, none)

/-- `PlayerWidget.action_next_track` (lines 221-234).  Note the Python
`%` on the `TRACK_LIST` branch: `x % 0` raises `ZeroDivisionError`
(after the `+= 1` has already happened), and for positive `len` the
result lies in `[0, len)`, which is `Int.emod`. -/
def action_next_track (s : PlayerWidget) : PlayerWidget × Option PyExc :=
  match s.repeat_ with
  | Repeat.NO => play { s with current_track_index := s.current_track_index + 1 }
  | Repeat.TRACK => play s
  | Repeat.TRACK_LIST =>
      if s.tracks.length = 0 then
        ({ s with current_track_index := s.current_track_index + 1 },
          some .zeroDivisionError)
      else
        play { s with current_track_index :=
          (s.current_track_index + 1) % (s.tracks.length : Int) }

/-- `PlayerWidget.action_prev_track` (lines 236-248), mirror image of
`action_next_track` with `-= 1`. -/
def action_prev_track (s : PlayerWidget) : PlayerWidget × Option PyExc :=
  match s.repeat_ with
  | Repeat.NO => play { s with current_track_index := s.current_track_index - 1 }
  | Repeat.TRACK => play s
  | Repeat.TRACK_LIST =>
      if s.tracks.length = 0 then
        ({ s with current_track_index := s.current_track_index - 1 },
          some .zeroDivisionError)
      else
        play { s with current_track_index :=
          (s.current_track_index - 1) % (s.tracks.length : Int) }

/-- `PlayerWidget.pause` (lines 250-264): writes the mpv `pause`
property, then pauses or resumes the playback timer and sets
`player_state` accordingly. -/
def pause (s : PlayerWidget) (p : Bool) : PlayerWidget :=
  if p then
    { s with player_paused := p, timer_running := false, player_state := State.PAUSED }
  else
    { s with player_paused := p, timer_running := true, player_state := State.PLAYING }

/-- `PlayerWidget.action_play_pause` (lines 266-274): pause from
`PLAYING`; unpause from `PAUSED` *or* `STOPPED`. -/
def action_play_pause (s : PlayerWidget) : PlayerWidget :=
  if s.player_state = State.PLAYING then pause s true
  else if s.player_state = State.PAUSED ∨ s.player_state = State.STOPPED then
    pause s false
  else s

/-- `PlayerWidget._track_finished` (lines 207-209):
`self.player.idle_active or int(self.player.percent_pos) >= 100`
(`or` short-circuits, matching `||`). -/
def track_finished (s : PlayerWidget) : Bool :=
  s.idle_active || 100 ≤ s.percent_pos

/-- `PlayerWidget._is_playing` (lines 211-213). -/
def is_playing (s : PlayerWidget) : Bool :=
  s.player_state = State.PLAYING

/-- `PlayerWidget._continue_with_next_track` (lines 215-219). -/
def continue_with_next_track (s : PlayerWidget) : Bool :=
  is_playing s && track_finished s

/-- `PlayerWidget.make_progress` (lines 284-293), the timer tick
callback: after the progress-bar and time-display updates (pure UI, not
modelled), it advances to the next track exactly when
`_continue_with_next_track()` holds. -/
def make_progress (s : PlayerWidget) : PlayerWidget × Option PyExc :=
  if continue_with_next_track s then action_next_track s else (s, none)

/-- The widget state after one `action_next_track` call (the state
component; used to iterate the skip action). -/
def nextState (s : PlayerWidget) : PlayerWidget :=
  (action_next_track s).1

end PlayerWidget

/-- The state of a `TrackSelection` widget (`tuidal.py` lines 296-328)
as far as the selection logic reads it: the fetched `tracks`, the ids of
the options currently in the `OptionList` (`set_tracks`, lines 398-409,
stores the track's position as the option id), and the index the UI
currently highlights (`self.track_list.highlighted`, owned by the
textual toolkit: `none` when nothing is highlighted). -/
structure TrackSelection where
  tracks : List Track
  option_ids : List Nat
  highlighted : Option Nat
deriving DecidableEq, Repr

namespace TrackSelection

/-- `TrackSelection.set_tracks` (lines 398-409): stores the list, clears
the options and re-adds one option per track with `id=str(index)`. -/
def set_tracks (ts : TrackSelection) (tracks : List Track) : TrackSelection :=
  { ts with tracks := tracks, option_ids := List.range tracks.length }

/-- The loop of `_get_tracks_from_highlighted_on` (lines 358-361): for
each remaining option id, append `self.tracks[track_id]`; a `track_id`
out of range raises `IndexError`, which discards the local list and
propagates. -/
def collect_tracks (tracks : List Track) : List Nat → List Track × Option PyExc
  | [] => ([], none)
  | i :: rest =>
      match tracks[i]? with
      | none => ([], some .indexError)
      | some t =>
          match collect_tracks tracks rest with
          | (l, none) => (t :: l, none)
          | (_, some e) => ([], some e)

/-- `TrackSelection._get_tracks_from_highlighted_on` (lines 347-363):
`[]` when nothing is highlighted, otherwise the tracks at the option ids
from position `highlighted` to `option_count - 1` (`range(highlighted,
option_count)` is `option_ids.drop highlighted`). -/
def get_tracks_from_highlighted_on (ts : TrackSelection) : List Track × Option PyExc :=
  match ts.highlighted with
  | none => ([], none)
  | some h => collect_tracks ts.tracks (ts.option_ids.drop h)

/-- `TrackSelection.action_select` (lines 341-345): hand the collected
tracks to the player widget and start playback. -/
def action_select (ts : TrackSelection) (p : PlayerWidget) :
    PlayerWidget × Option PyExc :=
  match get_tracks_from_highlighted_on ts with
  | (_, some e) => (p, some e)
  | (tracks, none) => PlayerWidget.play (PlayerWidget.set_tracks p tracks)

/-- `TrackSelection.search_tracks` (lines 375-396): the provider calls
(`album.tracks()` or `session.search`) are abstracted into their outcome
`resp`; the surrounding `except Exception` catches every error and
returns `[]`. -/
def search_tracks (resp : Except PyExc (List Track)) : Except PyExc (List Track) :=
  match resp with
  | .ok r => .ok r
  | .error _ => .ok []

end TrackSelection

namespace AlbumSelection

/-- `AlbumSelection.search_albums` (`tuidal.py` lines 472-498): the
provider calls (`artist.get_albums()` or `session.search`) are
abstracted into their outcome `resp`; only `except ObjectNotFound`
guards them, so every other provider error propagates. -/
def search_albums (resp : Except PyExc (List Album)) : Except PyExc (List Album) :=
  match resp with
  | .ok r => .ok r
  | .error .objectNotFound => .ok []
  | .error e => .error e

end AlbumSelection

namespace ArtistSearch

/-- `ArtistSearch.search_artists` (`tuidal.py` lines 625-640): the
provider call `session.search(query, models=[TidalArtist])` is
abstracted into its outcome `resp`; only `except ValueError` guards it
(which also catches `json.JSONDecodeError`), so every other provider
error — `ObjectNotFound` included — propagates. -/
def search_artists (resp : Except PyExc (List Artist)) : Except PyExc (List Artist) :=
  match resp with
  | .ok r => .ok r
  | .error e => if e.isValueError then .ok [] else .error e

end ArtistSearch

/-- The environment of a `Session` object (`session.py`): the outcomes
of its file-system and tidalapi calls, plus the content of the session
file on disk (`none` when absent).

* `file_present` is `get_session_file_path().exists()`.
* `load_outcome` is the outcome of `session.load_session_from_file`
  (a corrupt file raises, e.g. `json.JSONDecodeError`).
* `check_login_after_load` is `session.check_login()` after a load.
* `already_logged_in` is `session.check_login()` at entry of
  `login_to_tidal`.
* `oauth_outcome` is the outcome of `session.login_oauth_simple()`;
  tidalapi's device flow raises `TimeoutError` when the user's
  out-of-band authorization does not complete (timeout or abandonment).
* `save_outcome` is the outcome of `session.save_session_to_file`.
* `stored_file` / `new_session_blob` are the session file's current
  content and the serialized state a successful save would write. -/
structure SessionEnv where
  file_present : Bool
  load_outcome : Except PyExc Unit
  check_login_after_load : Bool
  already_logged_in : Bool
  oauth_outcome : Except PyExc Unit
  save_outcome : Except PyExc Unit
  stored_file : Option String
  new_session_blob : String
deriving Repr

namespace Session

/-- `Session.save_session` (`session.py` lines 87-100): returns whether
the save succeeded together with the file content afterwards; only
`OSError` is caught, any other exception propagates. -/
def save_session (env : SessionEnv) : (Bool × Option String) × Option PyExc :=
  match env.save_outcome with
  | .ok _ => ((true, some env.new_session_blob), none)
  | .error .osError => ((false, env.stored_file), none)
  | .error e => ((false, env.stored_file), some e)

/-- `Session.login_to_tidal` (`session.py` lines 43-60): immediate
`True` when already logged in; otherwise run the OAuth device flow and
save on success; `except TimeoutError` yields `False`; other exceptions
propagate.  The second component is the session file afterwards. -/
def login_to_tidal (env : SessionEnv) : Except PyExc Bool × Option String :=
  if env.already_logged_in then (.ok true, env.stored_file)
  else
    match env.oauth_outcome with
    | .ok _ =>
        match save_session env with
        | ((_, file), none) => (.ok true, file)
        | ((_, file), some .timeoutError) => (.ok false, file)
        | ((_, file), some e) => (.error e, file)
    | .error .timeoutError => (.ok false, env.stored_file)
    | .error e => (.error e, env.stored_file)

/-- `Session.load_from_file` (`session.py` lines 75-85): load the
session file and check the login; both the loaded and the expired branch
return normally; only `except TimeoutError` guards the body, so any
other exception from deserialization propagates. -/
def load_from_file (env : SessionEnv) : Option PyExc :=
  match env.load_outcome with
  | .ok _ => none
  | .error .timeoutError => none
  | .error e => some e

/-- `Session.create_session` (`session.py` lines 62-73): load the file
when it exists, otherwise fall back to the interactive login.  The
result pairs the exception that escapes (if any) with the session file
afterwards. -/
def create_session (env : SessionEnv) : Option PyExc × Option String :=
  if env.file_present then (load_from_file env, env.stored_file)
  else
    match login_to_tidal env with
    | (.ok _, file) => (none, file)
    | (.error e, file) => (some e, file)

end Session

/-! Concrete states used as failing inputs, counterexamples and witnesses. -/

/-- A player whose track list is empty (claim C1). -/
def c1Player : PlayerWidget :=
  { tracks := [], current_track_index := 0, repeat_ := .TRACK_LIST,
    player_state := .STOPPED, timer_running := false, player_paused := false,
    idle_active := false, percent_pos := 0 }

/-- A player under repeat policy `NO` with two tracks, cursor at the last
index (claim C2). -/
def c2Player : PlayerWidget :=
  { tracks := [⟨0⟩, ⟨1⟩], current_track_index := 1, repeat_ := .NO,
    player_state := .PLAYING, timer_running := true, player_paused := false,
    idle_active := false, percent_pos := 0 }

/-- A session environment whose session file exists but cannot be
deserialized: `load_session_from_file` raises `json.JSONDecodeError`
(claim C4). -/
def c4Env : SessionEnv :=
  { file_present := true, load_outcome := .error .jsonDecodeError,
    check_login_after_load := false, already_logged_in := false,
    oauth_outcome := .error .timeoutError, save_outcome := .ok (),
    stored_file := some "corrupt-blob", new_session_blob := "fresh-blob" }

/-- A paused player mid-list, with the device reporting end-of-stream
(claim C5's paused-tick scenario). -/
def c5Player : PlayerWidget :=
  { tracks := [⟨0⟩, ⟨1⟩], current_track_index := 0, repeat_ := .TRACK_LIST,
    player_state := .PAUSED, timer_running := false, player_paused := true,
    idle_active := true, percent_pos := 100 }

/-- A playing player with two tracks (claim C6). -/
def c6Player : PlayerWidget :=
  { tracks := [⟨0⟩, ⟨1⟩], current_track_index := 0, repeat_ := .TRACK_LIST,
    player_state := .PLAYING, timer_running := true, player_paused := false,
    idle_active := false, percent_pos := 0 }

/-- A player under repeat policy `TRACK_LIST` with three tracks, cursor
in the middle (claim C7). -/
def c7Player : PlayerWidget :=
  { tracks := [⟨0⟩, ⟨1⟩, ⟨2⟩], current_track_index := 1, repeat_ := .TRACK_LIST,
    player_state := .PLAYING, timer_running := true, player_paused := false,
    idle_active := false, percent_pos := 0 }

/-- A session environment with no usable login where the OAuth device
flow times out (claim C8). -/
def c8Env : SessionEnv :=
  { file_present := true, load_outcome := .ok (),
    check_login_after_load := false, already_logged_in := false,
    oauth_outcome := .error .timeoutError, save_outcome := .ok (),
    stored_file := some "previous-blob", new_session_blob := "fresh-blob" }

/-- A player under repeat policy `TRACK` (claim C9). -/
def c9Player : PlayerWidget :=
  { tracks := [⟨0⟩, ⟨1⟩], current_track_index := 1, repeat_ := .TRACK,
    player_state := .PLAYING, timer_running := true, player_paused := false,
    idle_active := false, percent_pos := 0 }

/-- A track selection screen displaying three tracks with the second one
highlighted (claim C10). -/
def c10Sel : TrackSelection :=
  { tracks := [⟨5⟩, ⟨6⟩, ⟨7⟩], option_ids := [0, 1, 2], highlighted := some 1 }

/-- The idle player the selection of claim C10 is handed to. -/
def c10Player : PlayerWidget :=
  { tracks := [], current_track_index := 0, repeat_ := .TRACK_LIST,
    player_state := .STOPPED, timer_running := false, player_paused := false,
    idle_active := false, percent_pos := 0 }

/-! Shared helper lemmas. -/

namespace PlayerWidget

/-- `play` never touches the track list or the cursor. -/
theorem play_preserves_nav (s : PlayerWidget) :
    (play s).1.tracks = s.tracks ∧
    (play s).1.current_track_index = s.current_track_index ∧
    (play s).1.repeat_ = s.repeat_ ∧
    (play s).1.player_paused = s.player_paused := by
  unfold play
  split <;> simp

/-- `current_track` only reads the track list and the cursor. -/
theorem current_track_eq_of (s t : PlayerWidget) (h1 : s.tracks = t.tracks)
    (h2 : s.current_track_index = t.current_track_index) :
    current_track s = current_track t := by
  unfold current_track
  rw [h1, h2]

/-- `play` leaves `current_track` as it found it. -/
theorem play_current_track (s : PlayerWidget) :
    current_track (play s).1 = current_track s := by
  unfold play
  split <;> simp [current_track]

/-- `pyGet` succeeds at any in-range nonnegative index. -/
theorem pyGet_isSome {α : Type} (l : List α) (i : Int) (h0 : 0 ≤ i)
    (hlt : i < (l.length : Int)) : (pyGet l i).isSome := by
  unfold pyGet
  rw [if_pos h0]
  have hn : i.toNat < l.length := (Int.toNat_lt' (by omega)).mpr hlt
  simp [List.getElem?_eq_getElem hn]

/-- When a current track exists, `play` succeeds and only flips the
state to `PLAYING` and restarts the timer. -/
theorem play_of_current_some (s : PlayerWidget)
    (h : (current_track s).isSome) :
    play s =
      ({ s with player_state := State.PLAYING, timer_running := true }, none) := by
  unfold play
  split
  · next heq =>
      exfalso
      have hnone : current_track s = none := heq
      rw [hnone] at h
      exact Bool.noConfusion h
  · rfl

/-- Stepping lemma: under `TRACK_LIST` with a non-empty list,
`action_next_track` succeeds and moves the cursor by `+1` modulo the
list length. -/
theorem next_step_track_list (s : PlayerWidget)
    (hr : s.repeat_ = Repeat.TRACK_LIST) (hlen : 0 < s.tracks.length) :
    action_next_track s =
      ({ s with
          current_track_index := (s.current_track_index + 1) % (s.tracks.length : Int),
          player_state := State.PLAYING,
          timer_running := true }, none) := by
  have hne : s.tracks.length ≠ 0 := hlen.ne'
  have h0 : 0 ≤ (s.current_track_index + 1) % (s.tracks.length : Int) :=
    Int.emod_nonneg _ (by exact_mod_cast hne)
  have hlt : (s.current_track_index + 1) % (s.tracks.length : Int) <
      (s.tracks.length : Int) := Int.emod_lt_of_pos _ (by exact_mod_cast hlen)
  have hsome : (current_track { s with current_track_index :=
      (s.current_track_index + 1) % (s.tracks.length : Int) }).isSome := by
    rw [show current_track { s with current_track_index :=
        (s.current_track_index + 1) % (s.tracks.length : Int) } =
      pyGet s.tracks ((s.current_track_index + 1) % (s.tracks.length : Int)) from rfl]
    exact pyGet_isSome _ _ h0 hlt
  obtain ⟨tr, ci, rp, ps, t, pp, ia, pos⟩ := s
  dsimp only at hr hne hsome ⊢
  subst hr
  simp only [action_next_track, if_neg hne]
  exact play_of_current_some _ hsome

/-- Stepping lemma: under `TRACK_LIST` with a non-empty list,
`action_prev_track` succeeds and moves the cursor by `-1` modulo the
list length. -/
theorem prev_step_track_list (s : PlayerWidget)
    (hr : s.repeat_ = Repeat.TRACK_LIST) (hlen : 0 < s.tracks.length) :
    action_prev_track s =
      ({ s with
          current_track_index := (s.current_track_index - 1) % (s.tracks.length : Int),
          player_state := State.PLAYING,
          timer_running := true }, none) := by
  have hne : s.tracks.length ≠ 0 := hlen.ne'
  have h0 : 0 ≤ (s.current_track_index - 1) % (s.tracks.length : Int) :=
    Int.emod_nonneg _ (by exact_mod_cast hne)
  have hlt : (s.current_track_index - 1) % (s.tracks.length : Int) <
      (s.tracks.length : Int) := Int.emod_lt_of_pos _ (by exact_mod_cast hlen)
  have hsome : (current_track { s with current_track_index :=
      (s.current_track_index - 1) % (s.tracks.length : Int) }).isSome := by
    rw [show current_track { s with current_track_index :=
        (s.current_track_index - 1) % (s.tracks.length : Int) } =
      pyGet s.tracks ((s.current_track_index - 1) % (s.tracks.length : Int)) from rfl]
    exact pyGet_isSome _ _ h0 hlt
  obtain ⟨tr, ci, rp, ps, t, pp, ia, pos⟩ := s
  dsimp only at hr hne hsome ⊢
  subst hr
  simp only [action_prev_track, if_neg hne]
  exact play_of_current_some _ hsome

/-- Iterating `nextState` under `TRACK_LIST` keeps the track list and
the policy, and the cursor follows `(start + k) mod len`. -/
theorem nextState_iter (s : PlayerWidget)
    (hr : s.repeat_ = Repeat.TRACK_LIST)
    (h0 : 0 ≤ s.current_track_index)
    (hlt : s.current_track_index < (s.tracks.length : Int)) :
    ∀ k : Nat, (nextState^[k] s).tracks = s.tracks ∧
      (nextState^[k] s).repeat_ = Repeat.TRACK_LIST ∧
      (nextState^[k] s).current_track_index =
        (s.current_track_index + k) % (s.tracks.length : Int) := by
  intro k
  induction k with
  | zero =>
      refine ⟨rfl, hr, ?_⟩
      simp [Int.emod_eq_of_lt h0 hlt]
  | succ k ih =>
      obtain ⟨htr, hrp, hci⟩ := ih
      have hlen : 0 < (nextState^[k] s).tracks.length := by
        rw [htr]; omega
      rw [Function.iterate_succ_apply']
      have hstep : nextState (nextState^[k] s) =
          { nextState^[k] s with
              current_track_index := ((nextState^[k] s).current_track_index + 1) %
                (((nextState^[k] s).tracks.length : Int)),
              player_state := State.PLAYING,
              timer_running := true } := by
        show (action_next_track (nextState^[k] s)).1 = _
        rw [next_step_track_list _ hrp hlen]
      rw [hstep]
      refine ⟨htr, hrp, ?_⟩
      show ((nextState^[k] s).current_track_index + 1) %
          (((nextState^[k] s).tracks.length : Int)) = _
      rw [hci, htr, Int.emod_add_emod]
      push_cast
      ring_nf

end PlayerWidget

/-! Claim theorems. -/

/-- C1: the spec claims that advancing on an empty track list returns
`None` for every direction and policy, totally and without faulting.
The code violates this: on the empty list `current_track` is indeed
`None`, but `action_next_track`/`action_prev_track` raise
`ZeroDivisionError` under `TRACK_LIST` (the `% len(self.tracks)` with
`len = 0`) and `AttributeError` under `NO` and `TRACK` (`play` calls
`get_url()` on `current_track`, which is `None`). -/
theorem c1_empty_list_advance_faults :
    PlayerWidget.current_track c1Player = none ∧
    (PlayerWidget.action_next_track c1Player).2 = some PyExc.zeroDivisionError ∧
    (PlayerWidget.action_prev_track c1Player).2 = some PyExc.zeroDivisionError ∧
    (PlayerWidget.action_next_track { c1Player with repeat_ := .NO }).2 =
      some PyExc.attributeError ∧
    (PlayerWidget.action_prev_track { c1Player with repeat_ := .NO }).2 =
      some PyExc.attributeError ∧
    (PlayerWidget.action_next_track { c1Player with repeat_ := .TRACK }).2 =
      some PyExc.attributeError ∧
    (PlayerWidget.action_prev_track { c1Player with repeat_ := .TRACK }).2 =
      some PyExc.attributeError := by
  decide

/-- C2: the spec claims that under policy `NO` the cursor clamps at both
boundaries with no wraparound: `advance(Next)` at the last index returns
`None` leaving the last track current, and `advance(Prev)` at index 0
clamps at 0.  The code violates both halves: `Next` at the last index
moves the cursor out of range (to `len`, not clamped), makes
`current_track` `None` (not the last track) and raises `AttributeError`
instead of returning `None`; `Prev` at index 0 moves the cursor to `-1`,
which Python's negative indexing resolves to the *last* track, so the
player wraps around and plays it. -/
theorem c2_no_policy_boundary_not_clamped :
    PlayerWidget.current_track c2Player = some ⟨1⟩ ∧
    (PlayerWidget.action_next_track c2Player).1.current_track_index = 2 ∧
    (PlayerWidget.action_next_track c2Player).2 = some PyExc.attributeError ∧
    PlayerWidget.current_track (PlayerWidget.action_next_track c2Player).1 = none ∧
    (PlayerWidget.action_prev_track
      { c2Player with current_track_index := 0 }).1.current_track_index = -1 ∧
    (PlayerWidget.action_prev_track { c2Player with current_track_index := 0 }).2 =
      none ∧
    PlayerWidget.current_track
      (PlayerWidget.action_prev_track { c2Player with current_track_index := 0 }).1 =
      some ⟨1⟩ := by
  decide

/-- C3 counterexample: the spec claims every catalog query normalizes
every provider error (not-found included) to an empty sequence.  But the
artist query propagates `ObjectNotFound` (it only catches `ValueError`),
and the album query propagates a transport error (it only catches
`ObjectNotFound`). -/
theorem c3_counterexample :
    ArtistSearch.search_artists (Except.error PyExc.objectNotFound) ≠
      Except.ok [] ∧
    AlbumSelection.search_albums (Except.error PyExc.otherError) ≠
      Except.ok [] := by
  exact ⟨fun h => Except.noConfusion h, fun h => Except.noConfusion h⟩

/-- C3 amended: the track query normalizes every provider error to `[]`;
the album query normalizes exactly `ObjectNotFound`; the artist query
normalizes exactly `ValueError` (and its subclasses); every other
provider error propagates out of the album and artist queries. -/
theorem c3_amended_error_normalization (e : PyExc) :
    TrackSelection.search_tracks (Except.error e) = Except.ok [] ∧
    AlbumSelection.search_albums (Except.error e) =
      (if e = PyExc.objectNotFound then Except.ok [] else Except.error e) ∧
    ArtistSearch.search_artists (Except.error e) =
      (if e.isValueError then Except.ok [] else Except.error e) := by
  refine ⟨rfl, ?_, rfl⟩
  cases e <;> simp [AlbumSelection.search_albums]

/-- C4: the spec claims loading the stored session never crashes the
caller: an absent file is `NotFound` and undeserializable content is
`Corrupt`, both treated as "no usable session".  The code handles the
absent file (it falls back to the interactive login), but a corrupt
file crashes: `load_from_file` only catches `TimeoutError`, so the
`json.JSONDecodeError` raised by `load_session_from_file` propagates
through `create_session` to the caller. -/
theorem c4_corrupt_session_file_crashes :
    (Session.create_session c4Env).1 = some PyExc.jsonDecodeError ∧
    (Session.create_session { c4Env with file_present := false }).1 = none := by
  exact ⟨rfl, rfl⟩

/-- C8: when the interactive OAuth device flow fails (tidalapi signals
both timeout and abandoned/rejected authorization by raising
`TimeoutError` from `login_oauth_simple`), `login_to_tidal` returns
`False` and the previously stored session file is left untouched —
`save_session` is only reached on success.  The session keeps no other
authentication state: `check_login()` simply remains false. -/
theorem c8_login_failure_keeps_stored_session (env : SessionEnv)
    (h1 : env.already_logged_in = false)
    (h2 : env.oauth_outcome = Except.error PyExc.timeoutError) :
    Session.login_to_tidal env = (Except.ok false, env.stored_file) := by
  unfold Session.login_to_tidal
  rw [h1, h2]
  simp

/-- C8 witness: the theorem applied to the concrete environment `c8Env`. -/
theorem c8_login_failure_witness :
    Session.login_to_tidal c8Env = (Except.ok false, some "previous-blob") :=
  c8_login_failure_keeps_stored_session c8Env rfl rfl

/-- C5: a tick (`make_progress`) triggers the auto-advance
(`action_next_track`) exactly when the playback state is `PLAYING` and
the device reports idle or a position of at least 100% of the duration;
in particular a tick firing while the state is `PAUSED` performs no
advance and leaves the state (and the whole widget) unchanged. -/
theorem c5_tick_advances_iff_playing_and_finished (s : PlayerWidget) :
    PlayerWidget.make_progress s =
      (if s.player_state = PlayerWidget.State.PLAYING ∧
          (s.idle_active = true ∨ 100 ≤ s.percent_pos) then
        PlayerWidget.action_next_track s
      else (s, none)) ∧
    (s.player_state = PlayerWidget.State.PAUSED →
      PlayerWidget.make_progress s = (s, none)) := by
  obtain ⟨tr, ci, rp, ps, t, pp, ia, pos⟩ := s
  constructor
  · cases ps <;> cases ia <;>
      by_cases h : (100 : Int) ≤ pos <;>
        simp [PlayerWidget.make_progress, PlayerWidget.continue_with_next_track,
          PlayerWidget.is_playing, PlayerWidget.track_finished, h]
  · intro hp
    cases ps <;>
      simp_all [PlayerWidget.make_progress, PlayerWidget.continue_with_next_track,
        PlayerWidget.is_playing]

/-- C5 witness: the theorem applied at the concrete paused player
`c5Player`, whose device even reports end-of-stream: the tick is a
no-op and the state stays `PAUSED`. -/
theorem c5_paused_tick_witness :
    PlayerWidget.make_progress c5Player = (c5Player, none) :=
  (c5_tick_advances_iff_playing_and_finished c5Player).2 rfl

/-- C6 counterexample: the spec claims `resume()` is valid only from
`Paused` and that the progress clock never ticks while the device is
paused.  The code violates both: `action_play_pause` from `STOPPED`
performs the resume branch and sets the state to `PLAYING`, and after
pausing (`action_play_pause` from `PLAYING`) followed by a track change
(`action_next_track` calls `play`, which restarts the clock without
clearing the mpv `pause` flag) the clock is running while the device is
paused. -/
theorem c6_counterexample :
    (PlayerWidget.action_play_pause
      { c6Player with player_state := .STOPPED, timer_running := false }).player_state =
      PlayerWidget.State.PLAYING ∧
    (PlayerWidget.action_next_track
      (PlayerWidget.action_play_pause c6Player)).1.timer_running = true ∧
    (PlayerWidget.action_next_track
      (PlayerWidget.action_play_pause c6Player)).1.player_paused = true ∧
    (PlayerWidget.action_next_track
      (PlayerWidget.action_play_pause c6Player)).1.player_state =
      PlayerWidget.State.PLAYING := by
  decide

/-- C6 amended: `pause(True)` sets the device pause flag, stops the
clock and sets the state to `PAUSED`; `pause(False)` clears the device
pause flag, starts the clock and sets the state to `PLAYING` — so each
single `pause` call keeps the device flag and the clock in lockstep
with the state it establishes.  `action_play_pause` performs
`pause(True)` from `PLAYING` and `pause(False)` from `PAUSED` *or*
`STOPPED` (resume is also accepted from `STOPPED`).  `play` never
writes the device pause flag, which is how the lockstep can be broken
by a track change from a paused device. -/
theorem c6_amended_pause_lockstep (s : PlayerWidget) :
    PlayerWidget.pause s true =
      { s with player_paused := true, timer_running := false,
               player_state := PlayerWidget.State.PAUSED } ∧
    PlayerWidget.pause s false =
      { s with player_paused := false, timer_running := true,
               player_state := PlayerWidget.State.PLAYING } ∧
    PlayerWidget.action_play_pause s =
      (if s.player_state = PlayerWidget.State.PLAYING then PlayerWidget.pause s true
       else PlayerWidget.pause s false) ∧
    (PlayerWidget.play s).1.player_paused = s.player_paused := by
  refine ⟨rfl, rfl, ?_, (PlayerWidget.play_preserves_nav s).2.2.2⟩
  obtain ⟨tr, ci, rp, ps, t, pp, ia, pos⟩ := s
  cases ps <;> simp [PlayerWidget.action_play_pause]

/-- C9: under repeat policy `TRACK`, `action_next_track` and
`action_prev_track` leave the track list and the cursor unchanged, so
`current_track` returns the same track before and after the call. -/
theorem c9_repeat_track_preserves_current (s : PlayerWidget)
    (h : s.repeat_ = PlayerWidget.Repeat.TRACK) :
    (PlayerWidget.action_next_track s).1.current_track_index =
      s.current_track_index ∧
    (PlayerWidget.action_next_track s).1.tracks = s.tracks ∧
    PlayerWidget.current_track (PlayerWidget.action_next_track s).1 =
      PlayerWidget.current_track s ∧
    (PlayerWidget.action_prev_track s).1.current_track_index =
      s.current_track_index ∧
    (PlayerWidget.action_prev_track s).1.tracks = s.tracks ∧
    PlayerWidget.current_track (PlayerWidget.action_prev_track s).1 =
      PlayerWidget.current_track s := by
  obtain ⟨tr, ci, rp, ps, t, pp, ia, pos⟩ := s
  dsimp only at h
  subst h
  have hnext : PlayerWidget.action_next_track
      ⟨tr, ci, .TRACK, ps, t, pp, ia, pos⟩ =
      PlayerWidget.play ⟨tr, ci, .TRACK, ps, t, pp, ia, pos⟩ := rfl
  have hprev : PlayerWidget.action_prev_track
      ⟨tr, ci, .TRACK, ps, t, pp, ia, pos⟩ =
      PlayerWidget.play ⟨tr, ci, .TRACK, ps, t, pp, ia, pos⟩ := rfl
  rw [hnext, hprev]
  obtain ⟨h1, h2, -, -⟩ :=
    PlayerWidget.play_preserves_nav ⟨tr, ci, .TRACK, ps, t, pp, ia, pos⟩
  exact ⟨h2, h1, PlayerWidget.play_current_track _, h2, h1,
    PlayerWidget.play_current_track _⟩

/-- C9 witness: the theorem applied at the concrete player `c9Player`. -/
theorem c9_repeat_track_witness :
    PlayerWidget.current_track (PlayerWidget.action_next_track c9Player).1 =
      PlayerWidget.current_track c9Player ∧
    PlayerWidget.current_track (PlayerWidget.action_prev_track c9Player).1 =
      PlayerWidget.current_track c9Player :=
  ⟨(c9_repeat_track_preserves_current c9Player rfl).2.2.1,
   (c9_repeat_track_preserves_current c9Player rfl).2.2.2.2.2⟩

/-- C7: under repeat policy `TRACK_LIST` on a non-empty list (cursor in
range), `action_next_track` applied `len` times returns the cursor to
its starting value, no call in the cycle faults, and a single
`action_next_track` / `action_prev_track` moves the cursor by `+1` /
`-1` modulo `len` (wrapping in both directions). -/
theorem c7_track_list_cyclic (s : PlayerWidget)
    (hr : s.repeat_ = PlayerWidget.Repeat.TRACK_LIST)
    (h0 : 0 ≤ s.current_track_index)
    (hlt : s.current_track_index < (s.tracks.length : Int)) :
    (PlayerWidget.nextState^[s.tracks.length] s).current_track_index =
      s.current_track_index ∧
    (∀ k : Nat,
      (PlayerWidget.action_next_track (PlayerWidget.nextState^[k] s)).2 = none) ∧
    (PlayerWidget.action_next_track s).1.current_track_index =
      (s.current_track_index + 1) % (s.tracks.length : Int) ∧
    (PlayerWidget.action_prev_track s).1.current_track_index =
      (s.current_track_index - 1) % (s.tracks.length : Int) := by
  have hlen : 0 < s.tracks.length := by omega
  refine ⟨?_, ?_, ?_, ?_⟩
  · obtain ⟨-, -, hci⟩ :=
      PlayerWidget.nextState_iter s hr h0 hlt s.tracks.length
    rw [hci,
      show s.current_track_index + (s.tracks.length : Int) =
        s.current_track_index + (s.tracks.length : Int) * 1 by ring,
      Int.add_mul_emod_self_left, Int.emod_eq_of_lt h0 hlt]
  · intro k
    obtain ⟨htr, hrp, -⟩ := PlayerWidget.nextState_iter s hr h0 hlt k
    have hlen' : 0 < (PlayerWidget.nextState^[k] s).tracks.length := by
      rw [htr]; exact hlen
    rw [PlayerWidget.next_step_track_list _ hrp hlen']
  · rw [PlayerWidget.next_step_track_list s hr hlen]
  · rw [PlayerWidget.prev_step_track_list s hr hlen]

/-- C7 witness: the theorem applied at the concrete three-track player
`c7Player`: three `action_next_track` calls bring the cursor back to 1. -/
theorem c7_track_list_cyclic_witness :
    0 ≤ c7Player.current_track_index ∧
    (PlayerWidget.nextState^[c7Player.tracks.length] c7Player).current_track_index =
      c7Player.current_track_index :=
  ⟨by decide, (c7_track_list_cyclic c7Player rfl (by decide) (by decide)).1⟩

/-- Dropping `k` entries from `List.range' s n` leaves `range' (s+k) (n-k)`. -/
theorem range'_drop : ∀ (k s n : Nat),
    (List.range' s n).drop k = List.range' (s + k) (n - k)
  | k, s, 0 => by simp
  | 0, s, n + 1 => by simp
  | k + 1, s, n + 1 => by
      rw [List.range'_succ, List.drop_succ_cons, range'_drop k (s + 1) n]
      congr 1 <;> omega

/-- `collect_tracks` over the index range `[h, len)` collects exactly the
suffix of the track list from position `h` on, without faulting. -/
theorem collect_tracks_range' (tracks : List Track) :
    ∀ (k h : Nat), h + k = tracks.length →
      TrackSelection.collect_tracks tracks (List.range' h k) =
        (tracks.drop h, none)
  | 0, h, hsum => by
      have : h = tracks.length := by omega
      subst this
      simp [TrackSelection.collect_tracks]
  | k + 1, h, hsum => by
      have hh : h < tracks.length := by omega
      rw [List.range'_succ]
      show TrackSelection.collect_tracks tracks (h :: List.range' (h + 1) k) = _
      rw [show TrackSelection.collect_tracks tracks (h :: List.range' (h + 1) k) =
          (match tracks[h]? with
            | none => ([], some PyExc.indexError)
            | some t =>
              match TrackSelection.collect_tracks tracks (List.range' (h + 1) k) with
              | (l, none) => (t :: l, none)
              | (_, some e) => ([], some e)) from rfl,
        List.getElem?_eq_getElem hh,
        collect_tracks_range' tracks k (h + 1) (by omega)]
      rw [List.drop_eq_getElem_cons hh]

/-- With the option ids laid out by `set_tracks` (the option id at
position `i` is `i`) and a highlighted position inside the list,
`_get_tracks_from_highlighted_on` returns the suffix of the fetched
tracks from the highlighted position on. -/
theorem get_tracks_suffix (ts : TrackSelection) (h : Nat)
    (hids : ts.option_ids = List.range ts.tracks.length)
    (hh : ts.highlighted = some h) (hle : h ≤ ts.tracks.length) :
    TrackSelection.get_tracks_from_highlighted_on ts = (ts.tracks.drop h, none) := by
  obtain ⟨tr, ids, hl⟩ := ts
  dsimp only at hids hh hle ⊢
  subst hids hh
  show TrackSelection.collect_tracks tr ((List.range tr.length).drop h) = _
  rw [List.range_eq_range', range'_drop, Nat.zero_add]
  exact collect_tracks_range' tr (tr.length - h) h (by omega)

/-- C10: selecting from a displayed track list (whose option ids were
laid out by `TrackSelection.set_tracks`) hands the player the suffix of
the displayed tracks from the highlighted position on, with the cursor
reset to 0, so playback starts at the selected track (`current_track`
becomes the highlighted one) and continues with the following ones;
when no entry is highlighted the player's list becomes empty (and the
subsequent `play()` faults on the empty list). -/
theorem c10_select_hands_suffix_to_player (ts : TrackSelection) (p : PlayerWidget)
    (hids : ts.option_ids = List.range ts.tracks.length) :
    (∀ h : Nat, ts.highlighted = some h → h < ts.tracks.length →
      TrackSelection.action_select ts p =
        ({ p with
            tracks := ts.tracks.drop h,
            current_track_index := 0,
            player_state := PlayerWidget.State.PLAYING,
            timer_running := true }, none) ∧
      PlayerWidget.current_track (TrackSelection.action_select ts p).1 =
        ts.tracks[h]?) ∧
    (ts.highlighted = none →
      (TrackSelection.action_select ts p).1.tracks = [] ∧
      (TrackSelection.action_select ts p).1.current_track_index = 0 ∧
      (TrackSelection.action_select ts p).2 = some PyExc.attributeError) := by
  constructor
  · intro h hh hlt
    have hget := get_tracks_suffix ts h hids hh hlt.le
    have hsel : TrackSelection.action_select ts p =
        PlayerWidget.play (PlayerWidget.set_tracks p (ts.tracks.drop h)) := by
      unfold TrackSelection.action_select
      rw [hget]
    have hcur : PlayerWidget.current_track
        (PlayerWidget.set_tracks p (ts.tracks.drop h)) = ts.tracks[h]? := by
      show pyGet (ts.tracks.drop h) 0 = ts.tracks[h]?
      unfold pyGet
      rw [if_pos le_rfl]
      rw [show ((0 : Int).toNat) = 0 from rfl, List.getElem?_drop, Nat.add_zero]
    have hsome : (PlayerWidget.current_track
        (PlayerWidget.set_tracks p (ts.tracks.drop h))).isSome := by
      rw [hcur]
      simp [List.getElem?_eq_getElem hlt]
    constructor
    · rw [hsel, PlayerWidget.play_of_current_some _ hsome]
      rfl
    · rw [hsel]
      rw [PlayerWidget.play_current_track
        (PlayerWidget.set_tracks p (ts.tracks.drop h))]
      exact hcur
  · intro hh
    have hsel : TrackSelection.action_select ts p =
        PlayerWidget.play (PlayerWidget.set_tracks p []) := by
      unfold TrackSelection.action_select TrackSelection.get_tracks_from_highlighted_on
      rw [hh]
    have hnone : PlayerWidget.current_track
        { PlayerWidget.set_tracks p [] with timer_running := false } = none := rfl
    rw [hsel]
    unfold PlayerWidget.play
    rw [hnone]
    exact ⟨rfl, rfl, rfl⟩

/-- C10 witness: the theorem applied at the concrete selection `c10Sel`
(three tracks, second entry highlighted) and player `c10Player`: the
player receives the two-track suffix with cursor 0. -/
theorem c10_select_witness :
    TrackSelection.action_select c10Sel c10Player =
      ({ c10Player with
          tracks := [⟨6⟩, ⟨7⟩],
          current_track_index := 0,
          player_state := PlayerWidget.State.PLAYING,
          timer_running := true }, none) := by
  rw [((c10_select_hands_suffix_to_player c10Sel c10Player rfl).1 1 rfl
    (by decide)).1]
  rfl
